import Mathlib

/-!
Verification development for the smam repository (a Signal multi-account
manager, `src/smam_package/smam.py`).

The Python module is shallowly embedded: JSON values are the inductive
`PyVal`, the registry file content is `FileContent` (either bytes that
JSON-decode to a value, or bytes that raise `JSONDecodeError`), and the
observable machine state is `FSState` (registry file, set of existing
directories, desktop launcher files, spawned processes, whether the
signal-desktop binary is on PATH).  Each top-level Python function is
translated into a pure state-passing function below, keeping the source
name.  Dynamic failures of Python (KeyError, TypeError, IndexError,
ValueError, FileNotFoundError, AttributeError) are made explicit via
`PyExc`-returning results.
-/

set_option autoImplicit false

namespace Smam

/-- A JSON-representable Python value, as produced by `json.load` and
consumed by `json.dump`.  Dictionaries are association lists with string
keys (JSON object keys are strings and are unique after decoding). -/
inductive PyVal where
  | null : PyVal
  | bool : Bool → PyVal
  | int : Int → PyVal
  | str : String → PyVal
  | list : List PyVal → PyVal
  | dict : List (String × PyVal) → PyVal

mutual

/-- Decidable structural equality for `PyVal` (the derive handler does not
support this nested inductive). -/
def PyVal.decEq : (a b : PyVal) → Decidable (a = b)
  | .null, .null => isTrue rfl
  | .null, .bool _ => isFalse nofun
  | .null, .int _ => isFalse nofun
  | .null, .str _ => isFalse nofun
  | .null, .list _ => isFalse nofun
  | .null, .dict _ => isFalse nofun
  | .bool _, .null => isFalse nofun
  | .bool x, .bool y =>
    if h : x = y then isTrue (by rw [h]) else isFalse (by simpa using h)
  | .bool _, .int _ => isFalse nofun
  | .bool _, .str _ => isFalse nofun
  | .bool _, .list _ => isFalse nofun
  | .bool _, .dict _ => isFalse nofun
  | .int _, .null => isFalse nofun
  | .int _, .bool _ => isFalse nofun
  | .int x, .int y =>
    if h : x = y then isTrue (by rw [h]) else isFalse (by simpa using h)
  | .int _, .str _ => isFalse nofun
  | .int _, .list _ => isFalse nofun
  | .int _, .dict _ => isFalse nofun
  | .str _, .null => isFalse nofun
  | .str _, .bool _ => isFalse nofun
  | .str _, .int _ => isFalse nofun
  | .str x, .str y =>
    if h : x = y then isTrue (by rw [h]) else isFalse (by simpa using h)
  | .str _, .list _ => isFalse nofun
  | .str _, .dict _ => isFalse nofun
  | .list _, .null => isFalse nofun
  | .list _, .bool _ => isFalse nofun
  | .list _, .int _ => isFalse nofun
  | .list _, .str _ => isFalse nofun
  | .list l1, .list l2 =>
    match PyVal.decEqList l1 l2 with
    | isTrue h => isTrue (by rw [h])
    | isFalse h => isFalse (by simpa using h)
  | .list _, .dict _ => isFalse nofun
  | .dict _, .null => isFalse nofun
  | .dict _, .bool _ => isFalse nofun
  | .dict _, .int _ => isFalse nofun
  | .dict _, .str _ => isFalse nofun
  | .dict _, .list _ => isFalse nofun
  | .dict d1, .dict d2 =>
    match PyVal.decEqKV d1 d2 with
    | isTrue h => isTrue (by rw [h])
    | isFalse h => isFalse (by simpa using h)

/-- Decidable equality for lists of `PyVal`. -/
def PyVal.decEqList : (a b : List PyVal) → Decidable (a = b)
  | [], [] => isTrue rfl
  | [], _ :: _ => isFalse nofun
  | _ :: _, [] => isFalse nofun
  | x :: xs, y :: ys =>
    match PyVal.decEq x y, PyVal.decEqList xs ys with
    | isTrue h1, isTrue h2 => isTrue (by rw [h1, h2])
    | isFalse h1, _ => isFalse (fun he => by cases he; exact h1 rfl)
    | _, isFalse h2 => isFalse (fun he => by cases he; exact h2 rfl)

/-- Decidable equality for string-keyed association lists of `PyVal`. -/
def PyVal.decEqKV : (a b : List (String × PyVal)) → Decidable (a = b)
  | [], [] => isTrue rfl
  | [], _ :: _ => isFalse nofun
  | _ :: _, [] => isFalse nofun
  | (k1, v1) :: r1, (k2, v2) :: r2 =>
    if hk : k1 = k2 then
      match PyVal.decEq v1 v2, PyVal.decEqKV r1 r2 with
      | isTrue h1, isTrue h2 => isTrue (by rw [hk, h1, h2])
      | isFalse h1, _ => isFalse (fun he => by cases he; exact h1 rfl)
      | _, isFalse h2 => isFalse (fun he => by cases he; exact h2 rfl)
    else isFalse (fun he => by cases he; exact hk rfl)

end

instance : DecidableEq PyVal := PyVal.decEq

/-- A Python exception kind, for the dynamic failures the embedded code can
raise.  The precise kind is recorded but no claim distinguishes kinds. -/
inductive PyExc where
  | typeError
  | keyError
  | indexError
  | valueError
  | attributeError
  | fileNotFound
  | unicodeDecodeError
  | recursionError
deriving DecidableEq, Repr

/-- The bytes stored in the registry file, classified by what `json.load`
does with them on a file opened with `encoding="utf-8"`; the three
constructors cover every possible byte content exactly once:
`parsed v` stands for bytes on which `json.load` succeeds, returning the
value `v`; `corrupt raw` stands for bytes on which it raises
`json.JSONDecodeError` (valid UTF-8 text that is not valid JSON);
`raisesOther e raw` stands for bytes on which it raises some exception
`e` outside `json.JSONDecodeError` — for example the single byte `0xFF`
is not valid UTF-8, so the read inside the `try` raises
`UnicodeDecodeError`, and pathologically nested text raises
`RecursionError`.  Equality of `FileContent` models byte-identity of the
file (the payloads record the content). -/
inductive FileContent where
  | parsed (v : PyVal)
  | corrupt (raw : String)
  | raisesOther (e : PyExc) (raw : List Nat)
deriving DecidableEq

/-- The observable state of the machine the script manipulates:
the registry file (absent when `none`), the set of existing directories,
the desktop launcher files (path and content), the processes spawned so
far (their argv), and whether `signal-desktop` resolves on PATH. -/
structure FSState where
  registryFile : Option FileContent
  dirs : List String
  desktopFiles : List (String × String)
  launches : List (List String)
  signalOnPath : Bool
deriving DecidableEq

/-- The user home directory, `Path.home()`.  Written `~` throughout, as in
the specification; every path in the program is anchored at it. -/
def homePath : String := "~"

/-- `MANAGER_CONFIG_DIR = Path.home() / ".config" / "signal_account_manager"`. -/
def MANAGER_CONFIG_DIR : String := homePath ++ "/.config/signal_account_manager"

/-- `DEFAULT_SIGNAL_DIR = Path.home() / ".config" / "Signal"`. -/
def DEFAULT_SIGNAL_DIR : String := homePath ++ "/.config/Signal"

/-- `DEFAULT_ACCOUNT_NAME = "Default"`. -/
def DEFAULT_ACCOUNT_NAME : String := "Default"

/-- A clean account record, the shape the registry is documented to hold:
a `name` and a `profile_dir`, both strings. -/
structure Account where
  name : String
  profile_dir : String
deriving DecidableEq, Repr

/-- Encode an `Account` as the JSON object the program writes for it. -/
def encodeAccount (a : Account) : PyVal :=
  .dict [("name", .str a.name), ("profile_dir", .str a.profile_dir)]


/-! ## Python semantics helpers -/

/-- Whitespace for `str.strip()` (ASCII subset; other Unicode spaces are
not exercised by any input considered here). -/
def isPySpace (c : Char) : Bool :=
  c == ' ' || c == '\t' || c == '\n' || c == '\r' || c == '\x0b' || c == '\x0c'

/-- `str.strip()`: drop leading and trailing whitespace. -/
def pyStrip (s : String) : String :=
  ⟨((s.data.dropWhile isPySpace).reverse.dropWhile isPySpace).reverse⟩

/-- `str.lower()` (ASCII). -/
def pyLower (s : String) : String :=
  ⟨s.data.map Char.toLower⟩

/-- `account_name.replace(" ", "_")`: with a one-character pattern,
`str.replace` is exactly a character map. -/
def sanitizeName (nm : String) : String :=
  ⟨nm.data.map (fun ch => if ch = ' ' then '_' else ch)⟩

/-- Accumulate the decimal digits of a Python integer literal after its
first digit; a single underscore is permitted between digits, as in
Python `int()`. -/
def pyDigitsAux : Nat → List Char → Option Nat
  | acc, [] => some acc
  | acc, '_' :: c :: rest =>
    if c.isDigit then pyDigitsAux (acc * 10 + (c.toNat - 48)) rest else none
  | acc, c :: rest =>
    if c.isDigit then pyDigitsAux (acc * 10 + (c.toNat - 48)) rest else none

/-- Python `int(s)` on an already-stripped string: optional sign followed
by decimal digits (underscores between digits allowed); `none` models the
`ValueError` raised on non-numeric input.  ASCII digits only (Unicode
decimals are not exercised here). -/
def pyInt (s : String) : Option Int :=
  match s.data with
  | '-' :: c :: rest =>
    if c.isDigit then (pyDigitsAux (c.toNat - 48) rest).map (fun n => -(n : Int)) else none
  | '+' :: c :: rest =>
    if c.isDigit then (pyDigitsAux (c.toNat - 48) rest).map (fun n => (n : Int)) else none
  | c :: rest =>
    if c.isDigit then (pyDigitsAux (c.toNat - 48) rest).map (fun n => (n : Int)) else none
  | [] => none

/-- Python truthiness of a value, for `if not accounts`. -/
def pyFalsy : PyVal → Bool
  | .null => true
  | .bool b => !b
  | .int n => n == 0
  | .str s => s.isEmpty
  | .list l => l.isEmpty
  | .dict kvs => kvs.isEmpty

/-- Python `v[k]` for a string key: succeeds only on a dictionary that has
the key (`KeyError` otherwise); on a non-dictionary it is a `TypeError`
(indexing a string or list by a string key). -/
def pyGetKey (v : PyVal) (k : String) : Except PyExc PyVal :=
  match v with
  | .dict kvs =>
    match kvs.lookup k with
    | some x => .ok x
    | none => .error .keyError
  | _ => .error .typeError

/-- Read an `Account` out of a JSON value: it must be an object whose
`name` and `profile_dir` keys are both strings (extra keys are allowed,
as the program tolerates them). -/
def decodeAccount (v : PyVal) : Option Account :=
  match pyGetKey v "name", pyGetKey v "profile_dir" with
  | .ok (.str n), .ok (.str p) => some ⟨n, p⟩
  | _, _ => none

/-- Decode every element of a JSON list as an `Account`. -/
def decodeAccounts : List PyVal → Option (List Account)
  | [] => some []
  | v :: rest =>
    match decodeAccount v, decodeAccounts rest with
    | some a, some tl => some (a :: tl)
    | _, _ => none

/-- Python list indexing `l[i]` with an `int` index: negative indices count
from the end; `none` models `IndexError`. -/
def pyIndexList {α : Type} (l : List α) (i : Int) : Option α :=
  let e : Int := if i < 0 then i + l.length else i
  if 0 ≤ e then l.get? e.toNat else none

/-- Python `del l[i]` with an `int` index (same index rule as `l[i]`);
`none` models `IndexError`. -/
def pyRemoveAt {α : Type} (l : List α) (i : Int) : Option (List α) :=
  let e : Int := if i < 0 then i + l.length else i
  if 0 ≤ e ∧ e < l.length then some (l.eraseIdx e.toNat) else none

/-- Python `str(v)` as used in f-string interpolation.  Exact for the
scalar values the program ever interpolates; container values never reach
an interpolation site in any verified path, so their rendering is
abbreviated. -/
def pyToString : PyVal → String
  | .null => "None"
  | .bool b => if b then "True" else "False"
  | .int n => toString n
  | .str s => s
  | .list _ => "[...]"
  | .dict _ => "\x7b...\x7d"

/-- `Path(p).resolve()`: syntactic canonicalization of a path (collapse
duplicate separators, drop `.` segments, apply `..`).  Symbolic links and
working-directory absolutization are not modelled; every path the program
builds is anchored at the home directory. -/
def resolvePath (p : String) : String :=
  String.intercalate "/"
    (((p.splitOn "/").filter (fun c => c != "" && c != ".")).foldl
      (fun acc c => if c = ".." then acc.dropLast else acc ++ [c]) [])

/-- Does a directory exist, `Path(p).exists()` / `os` probe against the
modelled set of directories. -/
def dirExists (s : FSState) (p : String) : Bool :=
  s.dirs.contains p

/-- `mkdir(parents=True, exist_ok=True)`: record the directory as existing.
Parent directories are not separately tracked; no verified property
observes them. -/
def mkdirP (p : String) (dirs : List String) : List String :=
  if p ∈ dirs then dirs else p :: dirs

/-! ## Persistence store (`load_accounts` / `save_accounts` /
`ensure_config_dir`) -/

/-- `load_accounts()`: open the registry file and `json.load` it,
returning `[]` on `json.JSONDecodeError` — and only on that exception:
anything else `json.load` raises (`UnicodeDecodeError`,
`RecursionError`) propagates to the caller, as does the
`FileNotFoundError` of a missing file (the `open` is outside the
`try`). -/
def load_accounts (fc : Option FileContent) : Except PyExc PyVal :=
  match fc with
  | none => .error .fileNotFound
  | some (.corrupt _) => .ok (.list [])
  | some (.raisesOther e _) => .error e
  | some (.parsed v) => .ok v

/-- `save_accounts(accounts)`: `json.dump` the list, overwriting the file.
`json.dump` serializes the value, and loading those bytes back yields the
same value, which `FileContent.parsed` captures. -/
def save_accounts (accounts : List PyVal) : FileContent :=
  .parsed (.list accounts)

/-- `ensure_config_dir()`: create the config directory, and create the
registry file containing `[]` when it does not exist. -/
def ensure_config_dir (s : FSState) : FSState :=
  { s with
    dirs := mkdirP MANAGER_CONFIG_DIR s.dirs
    registryFile :=
      match s.registryFile with
      | none => some (.parsed (.list []))
      | some fc => some fc }

/-- `is_signal_installed()`: `shutil.which("signal-desktop") is not None`. -/
def is_signal_installed (s : FSState) : Bool :=
  s.signalOnPath

/-! ## Reconciliation (`auto_add_default_signal`) -/

/-- Outcome of an operation that either finishes or raises an uncaught
Python exception (which aborts the whole script). -/
inductive AutoStatus where
  | ok
  | raised (e : PyExc)
deriving DecidableEq

/-- The JSON object `auto_add_default_signal` appends for the default
directory. -/
def defaultAccountVal : PyVal :=
  .dict [("name", .str DEFAULT_ACCOUNT_NAME), ("profile_dir", .str DEFAULT_SIGNAL_DIR)]

/-- The scan `for acc in accounts: if Path(acc["profile_dir"]).resolve()
== DEFAULT_SIGNAL_DIR.resolve(): return`.  Returns whether a matching
entry was found; raises if an element is not a dictionary with a string
`profile_dir` (`Path()` of a non-string raises `TypeError`). -/
def findDefaultMatch : List PyVal → Except PyExc Bool
  | [] => .ok false
  | acc :: rest =>
    match pyGetKey acc "profile_dir" with
    | .error e => .error e
    | .ok (.str p) =>
      if resolvePath p = resolvePath DEFAULT_SIGNAL_DIR then .ok true
      else findDefaultMatch rest
    | .ok _ => .error .typeError

/-- `auto_add_default_signal()`: when the default Signal directory exists
and no registry entry canonicalizes to it, append a `Default` entry and
persist.  Iterating or appending to a loaded value that is not a list
raises (`TypeError` on item lookup or `AttributeError` on `append`),
before anything is written. -/
def auto_add_default_signal (s : FSState) : FSState × AutoStatus :=
  if dirExists s DEFAULT_SIGNAL_DIR then
    match load_accounts s.registryFile with
    | .error e => (s, .raised e)
    | .ok (.list l) =>
      match findDefaultMatch l with
      | .error e => (s, .raised e)
      | .ok true => (s, .ok)
      | .ok false =>
        ({ s with registryFile := some (save_accounts (l ++ [defaultAccountVal])) }, .ok)
    | .ok _ => (s, .raised .typeError)
  else (s, .ok)

/-! ## Listing (`list_accounts`) -/

/-- The observable effect of `list_accounts()` on a non-falsy loaded
value: printing accesses `acc["name"]` and `acc["profile_dir"]` of every
entry, so a malformed entry raises; a non-list truthy value also raises
(its iteration yields keys or characters whose string lookup is a
`TypeError`, or it is not iterable at all). -/
def listAccountsIter : List PyVal → Except PyExc Unit
  | [] => .ok ()
  | acc :: rest =>
    match pyGetKey acc "name" with
    | .error e => .error e
    | .ok _ =>
      match pyGetKey acc "profile_dir" with
      | .error e => .error e
      | .ok _ => listAccountsIter rest

/-- `list_accounts()` as called from `select_account` / `delete_account`
(the loaded value is already known truthy there). -/
def list_accounts_check : PyVal → Except PyExc Unit
  | .list l => listAccountsIter l
  | _ => .error .typeError

/-! ## Launcher binding (`create_desktop_icon` /
`get_desktop_file_path`) -/

/-- `Path.home() / ".local" / "share" / "applications"`. -/
def applicationsDir : String := homePath ++ "/.local/share/applications"

/-- The `.desktop` path `create_desktop_icon` writes:
`applications_dir / f"Signal-(sanitized).desktop"` with spaces of the
account name replaced by underscores. -/
def desktopIconPath (account_name : String) : String :=
  applicationsDir ++ "/Signal-" ++ sanitizeName account_name ++ ".desktop"

/-- The text `create_desktop_icon` writes into the `.desktop` file. -/
def desktopFileContent (account_name profile_dir_str : String) : String :=
  "[Desktop Entry]\nName=Signal - " ++ account_name ++
  "\nComment=Launch Signal for the \x27" ++ account_name ++
  "\x27 profile\nExec=signal-desktop --user-data-dir=\"" ++ profile_dir_str ++
  "\"\nTerminal=false\nType=Application\nIcon=signal-desktop\nCategories=Network;InstantMessaging;"

/-- `create_desktop_icon(account_name, profile_dir_str)`: ensure the
applications directory exists and (over)write the descriptor file.  The
`chmod` has no observable on the modelled state. -/
def create_desktop_icon (account_name profile_dir_str : String) (s : FSState) : FSState :=
  let s1 := { s with dirs := mkdirP applicationsDir s.dirs }
  let p := desktopIconPath account_name
  { s1 with
    desktopFiles :=
      s1.desktopFiles.filter (fun e => e.1 != p) ++
        [(p, desktopFileContent account_name profile_dir_str)] }

/-- `get_desktop_file_path(account_name)`: the expected `.desktop` path,
recomputed independently at deletion time. -/
def get_desktop_file_path (account_name : String) : String :=
  homePath ++ "/.local/share/applications" ++ "/Signal-" ++
    sanitizeName account_name ++ ".desktop"

/-- Lines 211-218 of `delete_account`: if the descriptor file at
`get_desktop_file_path` exists, unlink it (failure would be caught and
reported; unlinking an existing modelled file always succeeds). -/
def removeShortcutStep (account_name : String) (s : FSState) : FSState :=
  let p := get_desktop_file_path account_name
  if s.desktopFiles.any (fun e => e.1 == p) then
    { s with desktopFiles := s.desktopFiles.filter (fun e => e.1 != p) }
  else s

/-! ## Lifecycle operations (`add_account` / `select_account` /
`delete_account`) -/

/-- Outcome of `add_account`. -/
inductive AddStatus where
  | ok
  | raised (e : PyExc)
deriving DecidableEq

/-- `add_account()` with the two prompt answers supplied as arguments
(the account label, and the y/n answer to the launcher-icon question).
Loads the registry, derives the profile directory from the stripped label
(spaces to underscores), creates the directory when missing (warns but
proceeds when it exists), appends the new record with no uniqueness
check, persists, and optionally creates a desktop icon. -/
def add_account (s : FSState) (nameInput iconInput : String) : FSState × AddStatus :=
  match load_accounts s.registryFile with
  | .error e => (s, .raised e)
  | .ok accounts =>
    let nm := pyStrip nameInput
    let pd := homePath ++ "/.config/Signal-" ++ sanitizeName nm
    let s1 := { s with dirs := mkdirP pd s.dirs }
    match accounts with
    | .list l =>
      let s2 :=
        { s1 with
          registryFile :=
            some (save_accounts (l ++ [.dict [("name", .str nm), ("profile_dir", .str pd)]])) }
      if pyLower iconInput = "y" then (create_desktop_icon nm pd s2, .ok)
      else (s2, .ok)
    | _ => (s1, .raised .attributeError)

/-- Outcome of `select_account`. -/
inductive SelectStatus where
  | noAccounts
  | invalid
  | launchedOk
  | raised (e : PyExc)
deriving DecidableEq

/-- `select_account()` with the index prompt answer supplied as an
argument.  `int(choice) - 1` indexes the loaded list with Python
semantics (negative indices count from the end); `ValueError` and
`IndexError` are caught and reported as an invalid choice; a successful
lookup spawns `signal-desktop --user-data-dir=...` and records it in
`launches`. -/
def select_account (s : FSState) (choice : String) : FSState × SelectStatus :=
  match load_accounts s.registryFile with
  | .error e => (s, .raised e)
  | .ok accounts =>
    if pyFalsy accounts then (s, .noAccounts)
    else
      match list_accounts_check accounts with
      | .error e => (s, .raised e)
      | .ok _ =>
        match accounts with
        | .list l =>
          match pyInt (pyStrip choice) with
          | none => (s, .invalid)
          | some n =>
            match pyIndexList l (n - 1) with
            | none => (s, .invalid)
            | some acc =>
              match pyGetKey acc "profile_dir" with
              | .error e => (s, .raised e)
              | .ok pdv =>
                match pyGetKey acc "name" with
                | .error e => (s, .raised e)
                | .ok _ =>
                  ({ s with
                     launches :=
                       s.launches ++
                         [["signal-desktop", "--user-data-dir=" ++ pyToString pdv]] },
                   .launchedOk)
        | _ => (s, .raised .typeError)

/-- Outcome of `delete_account`. -/
inductive DeleteStatus where
  | noAccounts
  | invalid
  | cancelled
  | deleted
  | raised (e : PyExc)
deriving DecidableEq

/-- `shutil.rmtree(p)`: remove the directory and everything below it;
`none` models the exception raised when `p` is not an existing
directory (caught and reported by the caller). -/
def removeTree (p : String) (dirs : List String) : Option (List String) :=
  if p ∈ dirs then
    some (dirs.filter (fun d => !(d == p || (p ++ "/").isPrefixOf d)))
  else none

/-- `delete_account()` with the three prompt answers supplied as
arguments (index, destructive confirmation, remove-directory choice).
Index resolution is as in `select_account`.  On confirmation the backing
directory is optionally removed (failures, including a malformed
`profile_dir` entry, are caught), the descriptor file is removed when
present, the entry is deleted and the registry persisted. -/
def delete_account (s : FSState) (choice confirmInput rmInput : String) :
    FSState × DeleteStatus :=
  match load_accounts s.registryFile with
  | .error e => (s, .raised e)
  | .ok accounts =>
    if pyFalsy accounts then (s, .noAccounts)
    else
      match list_accounts_check accounts with
      | .error e => (s, .raised e)
      | .ok _ =>
        match accounts with
        | .list l =>
          match pyInt (pyStrip choice) with
          | none => (s, .invalid)
          | some n =>
            match pyIndexList l (n - 1) with
            | none => (s, .invalid)
            | some acc =>
              -- the confirmation prompt interpolates acc["name"]
              match pyGetKey acc "name" with
              | .error e => (s, .raised e)
              | .ok _ =>
                if pyLower confirmInput = "y" then
                  let s1 :=
                    if pyLower rmInput = "y" then
                      -- try: shutil.rmtree(acc["profile_dir"]) except Exception
                      match pyGetKey acc "profile_dir" with
                      | .ok (.str p) =>
                        match removeTree p s.dirs with
                        | some dirs2 => { s with dirs := dirs2 }
                        | none => s
                      | _ => s
                    else s
                  match pyGetKey acc "name" with
                  | .ok (.str nm) =>
                    let s2 := removeShortcutStep nm s1
                    match pyRemoveAt l (n - 1) with
                    | some l2 =>
                      ({ s2 with registryFile := some (save_accounts l2) }, .deleted)
                    | none => (s2, .raised .indexError)
                  | .ok _ => (s1, .raised .attributeError)
                  | .error e => (s1, .raised e)
                else (s, .cancelled)
        | _ => (s, .raised .typeError)

/-! ## Startup (`main`) -/

/-- How the startup phase of `main` ended. -/
inductive MainStatus where
  | exitNotInstalled
  | menuReady
  | crashed (e : PyExc)
deriving DecidableEq

/-- The startup phase of `main()` before the menu loop:
`ensure_config_dir()`, then the installation check (printing guidance and
returning when `signal-desktop` is not on PATH), then
`auto_add_default_signal()`. -/
def mainStartup (s : FSState) : FSState × MainStatus :=
  let s1 := ensure_config_dir s
  if is_signal_installed s1 then
    match auto_add_default_signal s1 with
    | (s2, .ok) => (s2, .menuReady)
    | (s2, .raised e) => (s2, .crashed e)
  else (s1, .exitNotInstalled)

/-! ## Helper lemmas -/

theorem decodeAccount_encodeAccount (a : Account) :
    decodeAccount (encodeAccount a) = some a := by
  simp [decodeAccount, encodeAccount, pyGetKey, List.lookup]

theorem decodeAccounts_map_encode (accs : List Account) :
    decodeAccounts (accs.map encodeAccount) = some accs := by
  induction accs with
  | nil => rfl
  | cons a tl ih => simp [decodeAccounts, decodeAccount_encodeAccount, ih]

theorem all_filter_self {α : Type} (f : α → Bool) (l : List α) :
    (l.filter f).all f = true := by
  induction l with
  | nil => rfl
  | cons a tl ih =>
    rw [List.filter_cons]
    cases ha : f a
    · simp only [ha, Bool.false_eq_true, if_neg, not_false_iff]
      exact ih
    · simp only [if_pos, List.all_cons, ha, Bool.true_and]
      exact ih

theorem all_ne_of_any_eq_false (l : List (String × String)) (p : String)
    (h : l.any (fun e => e.1 == p) = false) :
    l.all (fun e => e.1 != p) = true := by
  induction l with
  | nil => rfl
  | cons e tl ih =>
    rw [List.any_cons, Bool.or_eq_false_iff] at h
    rw [List.all_cons, Bool.and_eq_true]
    exact ⟨by rw [bne, h.1]; rfl, ih h.2⟩

theorem removeShortcutStep_files (nm : String) (s : FSState) :
    ((removeShortcutStep nm s).desktopFiles).all
      (fun e => e.1 != get_desktop_file_path nm) = true := by
  unfold removeShortcutStep
  by_cases h : s.desktopFiles.any (fun e => e.1 == get_desktop_file_path nm) = true
  · simp only [h, if_pos]
    exact all_filter_self _ s.desktopFiles
  · simp only [Bool.not_eq_true] at h
    simp only [h, Bool.false_eq_true, if_neg, not_false_iff]
    exact all_ne_of_any_eq_false s.desktopFiles (get_desktop_file_path nm) h

/-! ## Claim theorems: persistence store -/

/-- C3 counterexample: the registry file holding the single byte `0xFF`
is not parseable as the expected structured format (it is not even valid
UTF-8), yet `load_accounts` does not return an empty sequence: the read
raises `UnicodeDecodeError`, which `except json.JSONDecodeError` does not
catch, so the error reaches the caller. -/
theorem load_accounts_non_utf8_raises :
    load_accounts (some (.raisesOther .unicodeDecodeError [255]))
      = .error .unicodeDecodeError := rfl

/-- C3 (amended): the silent empty-sequence recovery of `load_accounts`
covers exactly the contents on which `json.load` raises
`json.JSONDecodeError`: for those, an empty list is returned and no error
raised; for content on which `json.load` raises any other exception
(`UnicodeDecodeError` on bytes that are not valid UTF-8,
`RecursionError` on pathologically nested text), that exception
propagates to the caller. -/
theorem load_accounts_decode_error_only_recovered :
    (∀ raw : String, load_accounts (some (.corrupt raw)) = .ok (.list []))
      ∧ (∀ (e : PyExc) (bs : List Nat),
          load_accounts (some (.raisesOther e bs)) = .error e) :=
  ⟨fun _ => rfl, fun _ _ => rfl⟩

/-- C10: when the registry file holds valid JSON, `load_accounts` returns
the parsed value as-is, whatever its shape; in particular a JSON object
(`PyVal.dict`) is returned unchanged, not replaced by the empty list, so
callers may receive a non-sequence value.  The empty-list recovery
applies only to decode failures (`FileContent.corrupt`). -/
theorem load_accounts_parsed_id (v : PyVal) :
    load_accounts (some (.parsed v)) = .ok v := rfl

/-- C5: saving any sequence of valid Account records and loading it back
yields the same sequence, field for field. -/
theorem save_load_roundtrip (accs : List Account) :
    load_accounts (some (save_accounts (accs.map encodeAccount)))
        = .ok (.list (accs.map encodeAccount))
      ∧ decodeAccounts (accs.map encodeAccount) = some accs :=
  ⟨rfl, decodeAccounts_map_encode accs⟩

/-! ## Claim theorems: launcher binding -/

/-- C8: the descriptor path used when creating a shortcut and the path
recomputed by `get_desktop_file_path` when deleting use the same
sanitization (space to underscore) and are equal; consequently, creating
a shortcut and then removing it leaves no descriptor file at that
account's path. -/
theorem shortcut_create_remove_clean (s : FSState) (nm pd : String) :
    get_desktop_file_path nm = desktopIconPath nm
      ∧ ((removeShortcutStep nm (create_desktop_icon nm pd s)).desktopFiles).all
          (fun e => e.1 != get_desktop_file_path nm) = true :=
  ⟨rfl, removeShortcutStep_files nm (create_desktop_icon nm pd s)⟩

/-! ## Claim theorems: startup -/

/-- C9: when `signal-desktop` is not resolvable on PATH, `main` prints
guidance and returns right after `ensure_config_dir`, without entering
the menu loop and without reconciliation or any lifecycle operation: the
resulting state is exactly `ensure_config_dir` of the initial one. -/
theorem mainStartup_exits_when_not_installed (s : FSState)
    (h : s.signalOnPath = false) :
    mainStartup s = (ensure_config_dir s, .exitNotInstalled) := by
  have h1 : (ensure_config_dir s).signalOnPath = false := by
    simp [ensure_config_dir, h]
  unfold mainStartup is_signal_installed
  simp [h1]

/-- A concrete machine without the binary on PATH, for the C9 witness. -/
def stNoSignal : FSState :=
  { registryFile := some (.parsed (.list []))
    dirs := []
    desktopFiles := []
    launches := []
    signalOnPath := false }

/-- Witness for C9 at a concrete state. -/
theorem mainStartup_exits_witness :
    mainStartup stNoSignal = (ensure_config_dir stNoSignal, .exitNotInstalled) :=
  mainStartup_exits_when_not_installed stNoSignal rfl

/-! ## Claim theorems: reconciliation -/

theorem findDefaultMatch_append_default (l : List PyVal)
    (h : findDefaultMatch l = .ok false) :
    findDefaultMatch (l ++ [defaultAccountVal]) = .ok true := by
  induction l with
  | nil =>
    have h0 : findDefaultMatch ([] ++ [defaultAccountVal])
        = if resolvePath DEFAULT_SIGNAL_DIR = resolvePath DEFAULT_SIGNAL_DIR
          then Except.ok true else findDefaultMatch [] := rfl
    rw [h0, if_pos rfl]
  | cons acc rest ih =>
    rw [List.cons_append]
    unfold findDefaultMatch at h ⊢
    cases hg : pyGetKey acc "profile_dir" with
    | error e => rw [hg] at h; simp at h
    | ok v =>
      cases v with
      | str p =>
        show (if resolvePath p = resolvePath DEFAULT_SIGNAL_DIR then Except.ok true
            else findDefaultMatch (rest ++ [defaultAccountVal])) = Except.ok true
        by_cases hr : resolvePath p = resolvePath DEFAULT_SIGNAL_DIR
        · rw [if_pos hr]
        · rw [if_neg hr]
          have h2 : (if resolvePath p = resolvePath DEFAULT_SIGNAL_DIR
              then Except.ok true else findDefaultMatch rest) = Except.ok false := by
            rw [hg] at h; exact h
          rw [if_neg hr] at h2
          exact ih h2
      | null => rw [hg] at h; simp at h
      | bool b => rw [hg] at h; simp at h
      | int n => rw [hg] at h; simp at h
      | list l2 => rw [hg] at h; simp at h
      | dict kvs => rw [hg] at h; simp at h

/-- C4: default-directory reconciliation is idempotent; a second run of
`auto_add_default_signal` leaves the state (and in particular the
registry file) unchanged, so at most one `Default` entry is ever
appended. -/
theorem auto_add_default_signal_idempotent (s : FSState) :
    (auto_add_default_signal (auto_add_default_signal s).1).1
      = (auto_add_default_signal s).1 := by
  by_cases hd : dirExists s DEFAULT_SIGNAL_DIR
  · cases hl : load_accounts s.registryFile with
    | error e =>
      have h1 : auto_add_default_signal s = (s, .raised e) := by
        simp [auto_add_default_signal, hd, hl]
      rw [h1]
      show (auto_add_default_signal s).1 = s
      rw [h1]
    | ok v =>
      cases v with
      | list l =>
        cases hm : findDefaultMatch l with
        | error e =>
          have h1 : auto_add_default_signal s = (s, .raised e) := by
            simp [auto_add_default_signal, hd, hl, hm]
          rw [h1]
          show (auto_add_default_signal s).1 = s
          rw [h1]
        | ok b =>
          cases b with
          | true =>
            have h1 : auto_add_default_signal s = (s, .ok) := by
              simp [auto_add_default_signal, hd, hl, hm]
            rw [h1]
            show (auto_add_default_signal s).1 = s
            rw [h1]
          | false =>
            have h1 : auto_add_default_signal s
                = ({ s with
                     registryFile := some (save_accounts (l ++ [defaultAccountVal])) },
                   .ok) := by
              simp [auto_add_default_signal, hd, hl, hm]
            rw [h1]
            have hd2 : dirExists
                { s with registryFile := some (save_accounts (l ++ [defaultAccountVal])) }
                DEFAULT_SIGNAL_DIR := hd
            simp [auto_add_default_signal, hd2, load_accounts, save_accounts,
              findDefaultMatch_append_default l hm]
      | null =>
        have h1 : auto_add_default_signal s = (s, .raised .typeError) := by
          simp [auto_add_default_signal, hd, hl]
        rw [h1]
        show (auto_add_default_signal s).1 = s
        rw [h1]
      | bool b =>
        have h1 : auto_add_default_signal s = (s, .raised .typeError) := by
          simp [auto_add_default_signal, hd, hl]
        rw [h1]
        show (auto_add_default_signal s).1 = s
        rw [h1]
      | int n =>
        have h1 : auto_add_default_signal s = (s, .raised .typeError) := by
          simp [auto_add_default_signal, hd, hl]
        rw [h1]
        show (auto_add_default_signal s).1 = s
        rw [h1]
      | str st =>
        have h1 : auto_add_default_signal s = (s, .raised .typeError) := by
          simp [auto_add_default_signal, hd, hl]
        rw [h1]
        show (auto_add_default_signal s).1 = s
        rw [h1]
      | dict kvs =>
        have h1 : auto_add_default_signal s = (s, .raised .typeError) := by
          simp [auto_add_default_signal, hd, hl]
        rw [h1]
        show (auto_add_default_signal s).1 = s
        rw [h1]
  · have h1 : auto_add_default_signal s = (s, .ok) := by
      simp [auto_add_default_signal, hd]
    rw [h1]
    show (auto_add_default_signal s).1 = s
    rw [h1]

/-! ## Decoding and indexing lemmas for the index-based operations -/

theorem decodeAccount_getKey (v : PyVal) (a : Account)
    (h : decodeAccount v = some a) :
    pyGetKey v "name" = .ok (.str a.name)
      ∧ pyGetKey v "profile_dir" = .ok (.str a.profile_dir) := by
  unfold decodeAccount at h
  cases hn : pyGetKey v "name" with
  | error e => rw [hn] at h; simp at h
  | ok vn =>
    rw [hn] at h
    cases hp : pyGetKey v "profile_dir" with
    | error e => rw [hp] at h; cases vn <;> simp at h
    | ok vp =>
      rw [hp] at h
      cases vn <;> cases vp <;> simp at h
      case str.str n p =>
        rw [← h]
        exact ⟨rfl, rfl⟩

theorem decodeAccounts_iter_ok (l : List PyVal) (accs : List Account)
    (h : decodeAccounts l = some accs) : listAccountsIter l = .ok () := by
  induction l generalizing accs with
  | nil => rfl
  | cons v rest ih =>
    unfold decodeAccounts at h
    cases hv : decodeAccount v with
    | none => rw [hv] at h; simp at h
    | some a =>
      rw [hv] at h
      cases hr : decodeAccounts rest with
      | none => rw [hr] at h; simp at h
      | some tl =>
        obtain ⟨hk1, hk2⟩ := decodeAccount_getKey v a hv
        unfold listAccountsIter
        rw [hk1, hk2]
        exact ih tl hr

theorem list_accounts_check_ok (l : List PyVal) (accs : List Account)
    (hdec : decodeAccounts l = some accs) :
    list_accounts_check (.list l) = .ok () :=
  decodeAccounts_iter_ok l accs hdec

theorem decodeAccounts_length (l : List PyVal) (accs : List Account)
    (h : decodeAccounts l = some accs) : accs.length = l.length := by
  induction l generalizing accs with
  | nil =>
    simp [decodeAccounts] at h
    rw [h]
    rfl
  | cons v rest ih =>
    unfold decodeAccounts at h
    cases hv : decodeAccount v with
    | none => rw [hv] at h; simp at h
    | some a =>
      rw [hv] at h
      cases hr : decodeAccounts rest with
      | none => rw [hr] at h; simp at h
      | some tl =>
        rw [hr] at h
        simp only [Option.some.injEq] at h
        subst h
        simp [ih tl hr]

theorem decodeAccounts_get (l : List PyVal) (accs : List Account)
    (h : decodeAccounts l = some accs) (i : Nat) (v : PyVal)
    (hv : l.get? i = some v) :
    ∃ a, accs.get? i = some a ∧ decodeAccount v = some a := by
  induction l generalizing accs i with
  | nil => simp at hv
  | cons w rest ih =>
    unfold decodeAccounts at h
    cases hw : decodeAccount w with
    | none => rw [hw] at h; simp at h
    | some a0 =>
      rw [hw] at h
      cases hr : decodeAccounts rest with
      | none => rw [hr] at h; simp at h
      | some tl =>
        rw [hr] at h
        simp only [Option.some.injEq] at h
        subst h
        cases i with
        | zero =>
          rw [List.get?_cons_zero] at hv
          injection hv with hv
          subst hv
          exact ⟨a0, rfl, hw⟩
        | succ j =>
          rw [List.get?_cons_succ] at hv
          obtain ⟨a, ha1, ha2⟩ := ih tl hr j hv
          exact ⟨a, by rw [List.get?_cons_succ]; exact ha1, ha2⟩

theorem pyIndexList_eq_get {α : Type} (l : List α) (i : Int) (hi : 0 ≤ i) :
    pyIndexList l i = l.get? i.toNat := by
  simp only [pyIndexList]
  rw [if_neg (by omega : ¬ i < 0), if_pos hi]

theorem pyIndexList_neg {α : Type} (l : List α) (i : Int) (hneg : i < 0)
    (hlo : 0 ≤ i + l.length) :
    pyIndexList l i = l.get? (i + l.length).toNat := by
  simp only [pyIndexList]
  rw [if_pos hneg, if_pos hlo]

theorem pyIndexList_len_none {α : Type} (l : List α) :
    pyIndexList l (l.length : Int) = none := by
  rw [pyIndexList_eq_get l _ (by omega)]
  simp [List.get?_eq_none]

theorem pyRemoveAt_neg {α : Type} (l : List α) (i : Int) (hneg : i < 0)
    (hlo : 0 ≤ i + l.length) :
    pyRemoveAt l i = some (l.eraseIdx (i + l.length).toNat) := by
  simp only [pyRemoveAt]
  rw [if_pos hneg, if_pos ⟨hlo, by omega⟩]

/-! ## Path lemmas for the index-based menu operations -/

theorem select_account_empty (s : FSState) (choice : String)
    (hreg : s.registryFile = some (.parsed (.list []))) :
    select_account s choice = (s, .noAccounts) := by
  simp [select_account, hreg, load_accounts, pyFalsy]

theorem delete_account_empty (s : FSState) (choice conf rm : String)
    (hreg : s.registryFile = some (.parsed (.list []))) :
    delete_account s choice conf rm = (s, .noAccounts) := by
  simp [delete_account, hreg, load_accounts, pyFalsy]

theorem select_account_invalid_parse (s : FSState) (l : List PyVal)
    (accs : List Account) (choice : String)
    (hreg : s.registryFile = some (.parsed (.list l)))
    (hdec : decodeAccounts l = some accs)
    (hE : l.isEmpty = false)
    (hp : pyInt (pyStrip choice) = none) :
    select_account s choice = (s, .invalid) := by
  have hchk := list_accounts_check_ok l accs hdec
  simp [select_account, hreg, load_accounts, pyFalsy, hE, hchk, hp]

theorem select_account_invalid_index (s : FSState) (l : List PyVal)
    (accs : List Account) (choice : String) (n : Int)
    (hreg : s.registryFile = some (.parsed (.list l)))
    (hdec : decodeAccounts l = some accs)
    (hE : l.isEmpty = false)
    (hp : pyInt (pyStrip choice) = some n)
    (hi : pyIndexList l (n - 1) = none) :
    select_account s choice = (s, .invalid) := by
  have hchk := list_accounts_check_ok l accs hdec
  simp [select_account, hreg, load_accounts, pyFalsy, hE, hchk, hp, hi]

theorem select_account_launches (s : FSState) (l : List PyVal)
    (accs : List Account) (choice : String) (n : Int) (v : PyVal) (a : Account)
    (hreg : s.registryFile = some (.parsed (.list l)))
    (hdec : decodeAccounts l = some accs)
    (hE : l.isEmpty = false)
    (hp : pyInt (pyStrip choice) = some n)
    (hi : pyIndexList l (n - 1) = some v)
    (ha : decodeAccount v = some a) :
    select_account s choice
      = ({ s with
           launches :=
             s.launches ++ [["signal-desktop", "--user-data-dir=" ++ a.profile_dir]] },
         .launchedOk) := by
  have hchk := list_accounts_check_ok l accs hdec
  obtain ⟨hk1, hk2⟩ := decodeAccount_getKey v a ha
  simp [select_account, hreg, load_accounts, pyFalsy, hE, hchk, hp, hi, hk1, hk2,
    pyToString]

theorem delete_account_invalid_parse (s : FSState) (l : List PyVal)
    (accs : List Account) (choice conf rm : String)
    (hreg : s.registryFile = some (.parsed (.list l)))
    (hdec : decodeAccounts l = some accs)
    (hE : l.isEmpty = false)
    (hp : pyInt (pyStrip choice) = none) :
    delete_account s choice conf rm = (s, .invalid) := by
  have hchk := list_accounts_check_ok l accs hdec
  simp [delete_account, hreg, load_accounts, pyFalsy, hE, hchk, hp]

theorem delete_account_invalid_index (s : FSState) (l : List PyVal)
    (accs : List Account) (choice conf rm : String) (n : Int)
    (hreg : s.registryFile = some (.parsed (.list l)))
    (hdec : decodeAccounts l = some accs)
    (hE : l.isEmpty = false)
    (hp : pyInt (pyStrip choice) = some n)
    (hi : pyIndexList l (n - 1) = none) :
    delete_account s choice conf rm = (s, .invalid) := by
  have hchk := list_accounts_check_ok l accs hdec
  simp [delete_account, hreg, load_accounts, pyFalsy, hE, hchk, hp, hi]

theorem delete_account_deleted (s : FSState) (l : List PyVal)
    (accs : List Account) (choice : String) (n : Int) (v : PyVal) (a : Account)
    (l2 : List PyVal)
    (hreg : s.registryFile = some (.parsed (.list l)))
    (hdec : decodeAccounts l = some accs)
    (hE : l.isEmpty = false)
    (hp : pyInt (pyStrip choice) = some n)
    (hi : pyIndexList l (n - 1) = some v)
    (ha : decodeAccount v = some a)
    (hr : pyRemoveAt l (n - 1) = some l2) :
    delete_account s choice "y" "n"
      = ({ removeShortcutStep a.name s with
           registryFile := some (save_accounts l2) },
         .deleted) := by
  have hchk := list_accounts_check_ok l accs hdec
  obtain ⟨hk1, hk2⟩ := decodeAccount_getKey v a ha
  have hy : pyLower "y" = "y" := rfl
  have hn2 : pyLower "n" = "n" := rfl
  simp [delete_account, hreg, load_accounts, pyFalsy, hE, hchk, hp, hi, hk1, hr,
    hy, hn2]

theorem mem_mkdirP_self (p : String) (d : List String) : p ∈ mkdirP p d := by
  unfold mkdirP
  by_cases h : p ∈ d
  · rw [if_pos h]; exact h
  · rw [if_neg h]; exact List.mem_cons_self p d

theorem mem_mkdirP_of_mem (p q : String) (d : List String) (h : p ∈ d) :
    p ∈ mkdirP q d := by
  unfold mkdirP
  by_cases hq : q ∈ d
  · rw [if_pos hq]; exact h
  · rw [if_neg hq]; exact List.mem_cons_of_mem q h

/-! ## Claim theorems: add -/

/-- C6: `add_account` derives the profile directory from the stripped
label by replacing spaces with underscores, makes that directory exist,
and appends the new record to the registry with no uniqueness check; in
particular `add("Work")` on the empty registry yields exactly
`[(name Work, profile_dir ~/.config/Signal-Work)]` (see the witness). -/
theorem add_account_appends (s : FSState) (l : List PyVal)
    (nameInput iconInput : String)
    (hreg : s.registryFile = some (.parsed (.list l))) :
    (add_account s nameInput iconInput).1.registryFile
        = some (save_accounts (l ++
            [.dict [("name", .str (pyStrip nameInput)),
                    ("profile_dir",
                     .str (homePath ++ "/.config/Signal-" ++
                       sanitizeName (pyStrip nameInput)))]]))
      ∧ (homePath ++ "/.config/Signal-" ++ sanitizeName (pyStrip nameInput))
          ∈ (add_account s nameInput iconInput).1.dirs
      ∧ (add_account s nameInput iconInput).2 = .ok := by
  by_cases hic : pyLower iconInput = "y" <;>
    refine ⟨?_, ?_, ?_⟩ <;>
      simp [add_account, hreg, load_accounts, hic, create_desktop_icon,
        mem_mkdirP_self, mem_mkdirP_of_mem]

/-- The empty starting state (fresh registry file, nothing on disk). -/
def stEmpty : FSState :=
  { registryFile := some (.parsed (.list []))
    dirs := []
    desktopFiles := []
    launches := []
    signalOnPath := true }

/-- Witness for C6: `add("Work")` on the empty registry. -/
theorem add_account_appends_witness :
    (add_account stEmpty "Work" "n").1.registryFile
        = some (.parsed (.list
            [.dict [("name", .str "Work"),
                    ("profile_dir", .str "~/.config/Signal-Work")]]))
      ∧ ("~/.config/Signal-Work") ∈ (add_account stEmpty "Work" "n").1.dirs
      ∧ (add_account stEmpty "Work" "n").2 = .ok :=
  add_account_appends stEmpty [] "Work" "n" rfl

/-! ## Claim theorems: delete scenario -/

/-- C7: on a registry `[A, B, C]` of account records, `delete(2)` with
destructive confirmation (directory kept) removes exactly `B`: the
persisted registry is `[A, C]` in that order, and no descriptor file at
`B`-s shortcut path remains. -/
theorem delete_middle_of_three (s : FSState) (A B C : PyVal)
    (a b c : Account)
    (hreg : s.registryFile = some (.parsed (.list [A, B, C])))
    (hA : decodeAccount A = some a) (hB : decodeAccount B = some b)
    (hC : decodeAccount C = some c) :
    (delete_account s "2" "y" "n").1.registryFile = some (save_accounts [A, C])
      ∧ (delete_account s "2" "y" "n").2 = .deleted
      ∧ ((delete_account s "2" "y" "n").1.desktopFiles).all
          (fun e => e.1 != get_desktop_file_path b.name) = true := by
  have hdec : decodeAccounts [A, B, C] = some [a, b, c] := by
    simp [decodeAccounts, hA, hB, hC]
  have hdel := delete_account_deleted s [A, B, C] [a, b, c] "2" 2 B b [A, C]
    hreg hdec rfl rfl rfl hB rfl
  rw [hdel]
  exact ⟨rfl, rfl, removeShortcutStep_files b.name s⟩

/-- Sample records for the C7 witness. -/
def recA : PyVal := .dict [("name", .str "A"), ("profile_dir", .str "~/.config/Signal-A")]

def recB : PyVal := .dict [("name", .str "B"), ("profile_dir", .str "~/.config/Signal-B")]

def recC : PyVal := .dict [("name", .str "C"), ("profile_dir", .str "~/.config/Signal-C")]

/-- A machine whose registry is `[A, B, C]` and where `B`-s shortcut file
exists. -/
def stABC : FSState :=
  { registryFile := some (.parsed (.list [recA, recB, recC]))
    dirs := ["~/.config/Signal-A", "~/.config/Signal-B", "~/.config/Signal-C"]
    desktopFiles := [("~/.local/share/applications/Signal-B.desktop", "x")]
    launches := []
    signalOnPath := true }

/-- Witness for C7 at the concrete `[A, B, C]` registry. -/
theorem delete_middle_of_three_witness :
    (delete_account stABC "2" "y" "n").1.registryFile
        = some (save_accounts [recA, recC])
      ∧ (delete_account stABC "2" "y" "n").2 = .deleted
      ∧ ((delete_account stABC "2" "y" "n").1.desktopFiles).all
          (fun e => e.1 != get_desktop_file_path "B") = true :=
  delete_middle_of_three stABC recA recB recC ⟨"A", "~/.config/Signal-A"⟩
    ⟨"B", "~/.config/Signal-B"⟩ ⟨"C", "~/.config/Signal-C"⟩ rfl rfl rfl rfl

/-! ## Claim theorems: index validation (C1, C2) -/

/-- A machine whose registry holds exactly one account. -/
def stOne : FSState :=
  { registryFile := some (.parsed (.list [recA]))
    dirs := ["~/.config/Signal-A"]
    desktopFiles := []
    launches := []
    signalOnPath := true }

/-- C1 counterexample: on a registry of length 1, `delete` with the
1-based index 0 does not report an error and does not leave the registry
file byte-identical: `int("0") - 1 = -1` is valid Python negative
indexing, so the last account is deleted and the file rewritten. -/
theorem delete_index_zero_mutates :
    ((delete_account stOne "0" "y" "n").1.registryFile
        == stOne.registryFile) = false
      ∧ (delete_account stOne "0" "y" "n").2 = DeleteStatus.deleted :=
  ⟨rfl, rfl⟩

/-- C1 (amended): for a registry of length N, `delete`/`select` with
index N+1 or with non-numeric input reports an error ("Invalid choice",
or "No accounts" when N = 0) and performs no state change at all: no
registry mutation, no launch.  Index 0 is rejected only when N = 0; on a
non-empty registry it is accepted end-relatively (see C2 and the
counterexample). -/
theorem invalid_index_rejected (s : FSState) (l : List PyVal)
    (accs : List Account) (choice conf rm : String)
    (hreg : s.registryFile = some (.parsed (.list l)))
    (hdec : decodeAccounts l = some accs)
    (hbad : pyInt (pyStrip choice) = none
      ∨ pyInt (pyStrip choice) = some ((l.length : Int) + 1)) :
    select_account s choice = (s, if l.isEmpty then .noAccounts else .invalid)
      ∧ delete_account s choice conf rm
          = (s, if l.isEmpty then .noAccounts else .invalid) := by
  cases l with
  | nil =>
    exact ⟨select_account_empty s choice hreg,
           delete_account_empty s choice conf rm hreg⟩
  | cons x xs =>
    have hE : (x :: xs).isEmpty = false := rfl
    have hidx : pyIndexList (x :: xs) ((((x :: xs).length : Int) + 1) - 1) = none := by
      have he : ((((x :: xs).length : Int) + 1) - 1) = (((x :: xs).length : Nat) : Int) := by
        omega
      rw [he]
      exact pyIndexList_len_none _
    cases hbad with
    | inl hp =>
      exact ⟨select_account_invalid_parse s _ accs choice hreg hdec hE hp,
             delete_account_invalid_parse s _ accs choice conf rm hreg hdec hE hp⟩
    | inr hp =>
      exact ⟨select_account_invalid_index s _ accs choice _ hreg hdec hE hp hidx,
             delete_account_invalid_index s _ accs choice conf rm _ hreg hdec hE hp hidx⟩

/-- Witness for the amended C1: registry of length 1, input `2` = N+1 is
rejected by both operations with no state change. -/
theorem invalid_index_rejected_witness :
    pyInt (pyStrip "2") = some ((([recA] : List PyVal).length : Int) + 1)
      ∧ select_account stOne "2" = (stOne, .invalid)
      ∧ delete_account stOne "2" "y" "n" = (stOne, .invalid) := by
  have h := invalid_index_rejected stOne [recA] [⟨"A", "~/.config/Signal-A"⟩]
    "2" "y" "n" rfl rfl (Or.inr rfl)
  exact ⟨rfl, h.1, h.2⟩

/-- C2 counterexample: on a registry of length N = 1, the numeric input
-1 (so k = 1 = N) is NOT accepted: `int("-1") - 1 = -2` is out of range
for one element, so both operations report "Invalid choice" and leave the
state unchanged.  The end-relative window is k ≤ N-1, not k ≤ N. -/
theorem select_minus_one_rejected :
    select_account stOne "-1" = (stOne, SelectStatus.invalid)
      ∧ delete_account stOne "-1" "y" "n" = (stOne, DeleteStatus.invalid) :=
  ⟨rfl, rfl⟩

/-- C2 (amended): on a non-empty registry of length N, `select` and
`delete` resolve the numeric input 0, and any numeric input -k with
k ≤ N-1, end-relatively via Python negative indexing: input c with
1-N ≤ c ≤ 0 acts on the account at 0-based position c - 1 + N (input 0
targets account N, the last one).  `select` launches that account;
`delete` (confirmed, directory kept) removes exactly that entry. -/
theorem select_delete_end_relative (s : FSState) (l : List PyVal)
    (accs : List Account) (choice : String) (cval : Int)
    (hreg : s.registryFile = some (.parsed (.list l)))
    (hdec : decodeAccounts l = some accs)
    (hE : l.isEmpty = false)
    (hc : pyInt (pyStrip choice) = some cval)
    (hlo : 1 - (l.length : Int) ≤ cval) (hhi : cval ≤ 0) :
    ∃ a, accs.get? (cval - 1 + (l.length : Int)).toNat = some a
      ∧ select_account s choice
          = ({ s with launches := s.launches ++
               [["signal-desktop", "--user-data-dir=" ++ a.profile_dir]] },
             .launchedOk)
      ∧ (delete_account s choice "y" "n").1.registryFile
          = some (save_accounts (l.eraseIdx (cval - 1 + (l.length : Int)).toNat))
      ∧ (delete_account s choice "y" "n").2 = .deleted := by
  have hlen : 0 < l.length := by
    cases l with
    | nil => simp at hE
    | cons x xs => simp
  have hneg : cval - 1 < 0 := by omega
  have hlo2 : 0 ≤ cval - 1 + (l.length : Int) := by omega
  have hieq := pyIndexList_neg l (cval - 1) hneg hlo2
  have hbound : (cval - 1 + (l.length : Int)).toNat < l.length := by omega
  have hv : l.get? (cval - 1 + (l.length : Int)).toNat
      = some (l.get ⟨(cval - 1 + (l.length : Int)).toNat, hbound⟩) :=
    List.get?_eq_get hbound
  obtain ⟨a, ha1, ha2⟩ := decodeAccounts_get l accs hdec _ _ hv
  have hsel := select_account_launches s l accs choice cval _ a hreg hdec hE hc
    (by rw [hieq]; exact hv) ha2
  have hdel := delete_account_deleted s l accs choice cval _ a
    (l.eraseIdx (cval - 1 + (l.length : Int)).toNat) hreg hdec hE hc
    (by rw [hieq]; exact hv) ha2 (pyRemoveAt_neg l (cval - 1) hneg hlo2)
  exact ⟨a, ha1, hsel, by rw [hdel], by rw [hdel]⟩

/-- A machine whose registry holds two accounts, for the C2 witness. -/
def stAB : FSState :=
  { registryFile := some (.parsed (.list [recA, recB]))
    dirs := ["~/.config/Signal-A", "~/.config/Signal-B"]
    desktopFiles := []
    launches := []
    signalOnPath := true }

/-- Witness for the amended C2: registry of length 2, input `0` targets
the last account (B). -/
theorem select_delete_end_relative_witness :
    ∃ a, ([(⟨"A", "~/.config/Signal-A"⟩ : Account),
           ⟨"B", "~/.config/Signal-B"⟩].get?
        ((0 : Int) - 1 + (([recA, recB] : List PyVal).length : Int)).toNat) = some a
      ∧ select_account stAB "0"
          = ({ stAB with launches := stAB.launches ++
               [["signal-desktop", "--user-data-dir=" ++ a.profile_dir]] },
             .launchedOk)
      ∧ (delete_account stAB "0" "y" "n").1.registryFile
          = some (save_accounts ([recA, recB].eraseIdx
              ((0 : Int) - 1 + (([recA, recB] : List PyVal).length : Int)).toNat))
      ∧ (delete_account stAB "0" "y" "n").2 = .deleted :=
  select_delete_end_relative stAB [recA, recB]
    [⟨"A", "~/.config/Signal-A"⟩, ⟨"B", "~/.config/Signal-B"⟩] "0" 0
    rfl rfl rfl rfl (by decide) (by decide)

end Smam
